import Mathlib

/-!
Shallow embedding of the native field-access bridge in `src/native/src/lib.rs`
(crate `reflexion-native`).  The crate is a JNI bridge: every entry point takes
a `JNIEnv`, converts Java strings, resolves a class and a field through the JNI
primitives of the host JVM, and reads or writes the field.  We embed the JVM
side as an explicit state (`JVM`): class resolution, field declarations keyed
by (name, descriptor) exactly as JNI `GetFieldID`/`GetStaticFieldID` are, and
field storage.  Rust panics (`unwrap`/`expect`) are embedded as
`Except.error msg` carrying the panic message from the source; a mutating call
returns the (possibly updated) state together with the outcome so that
"no partial write" is a provable statement rather than a typing artifact.

Primitive payloads are never interpreted by the bridge (they are passed through
between the caller and the JVM storage), so `jboolean`/`jchar` are embedded as
`Nat`, the signed integral kinds as `Int`, and `jfloat`/`jdouble` as their raw
bit patterns (`Nat`); object references are nullable handles (`Option Nat`).
-/

/-- A `jni::objects::JString`: `none` when `env.get_string` fails to convert it
to a Rust `String`, `some s` when it converts to `s`. -/
abbrev JString := Option String

/-- A `jni::objects::JObject` reference: `none` is the JVM `null` (the value for
which `JObject::is_null` returns true), `some o` a live object handle. -/
abbrev JObject := Option Nat

/-- The tagged union `jni::objects::JValue`: exactly one variant is active.
Payloads are opaque to the bridge: `Bool` carries the raw `jboolean` (a `u8`),
`Char` the raw `jchar` (a `u16`), `Float`/`Double` the raw IEEE bit pattern —
the bridge never inspects or converts any payload. -/
inductive JValue where
  | Object : Option Nat → JValue
  | Bool : Nat → JValue
  | Byte : Int → JValue
  | Char : Nat → JValue
  | Short : Int → JValue
  | Int : Int → JValue
  | Long : Int → JValue
  | Float : Nat → JValue
  | Double : Nat → JValue
deriving DecidableEq

/-- The nine kinds a `JValue` can carry (the eight primitive kinds plus object
references); `JKind` names the active tag of a `JValue`. -/
inductive JKind where
  | object | boolean | byte | char | short | int | long | float | double
deriving DecidableEq

/-- Active tag of a `JValue`. -/
def JValue.kind : JValue → JKind
  | .Object _ => .object
  | .Bool _ => .boolean
  | .Byte _ => .byte
  | .Char _ => .char
  | .Short _ => .short
  | .Int _ => .int
  | .Long _ => .long
  | .Float _ => .float
  | .Double _ => .double

/-- Kind denoted by a JVM type-descriptor string, decided by its leading
character exactly as the JNI layer does (`Z B C S I J F D` are the primitive
tags, `L...;` and `[` describe object references); `none` for a string that is
not a descriptor. -/
def kindOfDescriptor (sig : String) : Option JKind :=
  match sig.toList with
  | 'Z' :: _ => some .boolean
  | 'B' :: _ => some .byte
  | 'C' :: _ => some .char
  | 'S' :: _ => some .short
  | 'I' :: _ => some .int
  | 'J' :: _ => some .long
  | 'F' :: _ => some .float
  | 'D' :: _ => some .double
  | 'L' :: _ => some .object
  | '[' :: _ => some .object
  | _ => none

/-- The `JValue::l` accessor: the object payload, or `none` on a tag mismatch
(the Rust method returns `Err(WrongJValueType)` there). -/
def JValue.l : JValue → Option (Option Nat)
  | .Object o => some o
  | _ => none

/-- The `JValue::z` accessor (boolean payload or tag mismatch). -/
def JValue.z : JValue → Option Nat
  | .Bool v => some v
  | _ => none

/-- The `JValue::b` accessor (byte payload or tag mismatch). -/
def JValue.b : JValue → Option ℤ
  | .Byte v => some v
  | _ => none

/-- The `JValue::c` accessor (char payload or tag mismatch). -/
def JValue.c : JValue → Option Nat
  | .Char v => some v
  | _ => none

/-- The `JValue::s` accessor (short payload or tag mismatch). -/
def JValue.s : JValue → Option ℤ
  | .Short v => some v
  | _ => none

/-- The `JValue::i` accessor (int payload or tag mismatch). -/
def JValue.i : JValue → Option ℤ
  | .Int v => some v
  | _ => none

/-- The `JValue::j` accessor (long payload or tag mismatch). -/
def JValue.j : JValue → Option ℤ
  | .Long v => some v
  | _ => none

/-- The `JValue::f` accessor (float payload or tag mismatch). -/
def JValue.f : JValue → Option Nat
  | .Float v => some v
  | _ => none

/-- The `JValue::d` accessor (double payload or tag mismatch). -/
def JValue.d : JValue → Option Nat
  | .Double v => some v
  | _ => none

/-- State of the host JVM as seen through the JNI primitives the bridge calls:
class resolution by qualified name, field declarations keyed by
(class, field name, descriptor) — JNI `GetFieldID`/`GetStaticFieldID` look a
field up by name AND signature — and the field storage itself.  Instance-field
declarations are per class (the JVM searches supertypes itself; the result of
that search is what `instFieldDecl` records), instance storage is per object. -/
structure JVM where
  findClass : String → Option Nat
  staticFieldDecl : Nat → String → String → Bool
  staticFieldVal : Nat → String → String → JValue
  objClass : Nat → Nat
  instFieldDecl : Nat → String → String → Bool
  instFieldVal : Nat → String → String → JValue

/-- Pointwise update of a three-argument table at one key. -/
def update3 (f : Nat → String → String → JValue) (c0 : Nat) (n0 s0 : String)
    (v : JValue) : Nat → String → String → JValue :=
  fun c n s => if c = c0 ∧ n = n0 ∧ s = s0 then v else f c n s

/-- JNI `env.get_static_field(class, name, sig)`: field ID lookup by name and
signature, then a typed read; fails when no field with exactly that name and
descriptor exists on the class. -/
def JVM.getStaticField (env : JVM) (cls : Nat) (name sig : String) : Option JValue :=
  if env.staticFieldDecl cls name sig then some (env.staticFieldVal cls name sig) else none

/-- JNI `env.get_static_field_id(class, name, sig)`: resolves the (name, sig)
pair to a field ID, `none` when no such field exists. -/
def JVM.getStaticFieldId (env : JVM) (cls : Nat) (name sig : String) :
    Option (String × String) :=
  if env.staticFieldDecl cls name sig then some (name, sig) else none

/-- JNI `env.set_static_field(class, field_id, value)`: stores the value in the
slot the already-resolved field ID names; it does not fail. -/
def JVM.setStaticField (env : JVM) (cls : Nat) (fid : String × String) (v : JValue) : JVM :=
  { env with staticFieldVal := update3 env.staticFieldVal cls fid.1 fid.2 v }

/-- JNI `env.get_field(obj, name, sig)`: takes the object's class, resolves the
(name, sig) pair on it, then reads the instance slot; fails when no field with
exactly that name and descriptor exists. -/
def JVM.getField (env : JVM) (obj : Nat) (name sig : String) : Option JValue :=
  if env.instFieldDecl (env.objClass obj) name sig then
    some (env.instFieldVal obj name sig)
  else none

/-- JNI `env.set_field(obj, name, sig, value)`: resolves the (name, sig) pair on
the object's class and writes the instance slot; `none` (no state change) when
the field does not exist. -/
def JVM.setField (env : JVM) (obj : Nat) (name sig : String) (v : JValue) : Option JVM :=
  if env.instFieldDecl (env.objClass obj) name sig then
    some { env with instFieldVal := update3 env.instFieldVal obj name sig v }
  else none

/-- Conversion `env.get_string(js).unwrap().into()`: yields the Rust `String`,
or panics (the `unwrap` of the `Result`) when the conversion fails. -/
def jGetString : JString → Except String String
  | some str => Except.ok str
  | none => Except.error "called Result.unwrap on an Err value"

/-- Rust `Option::expect` / `Result::expect`: the value, or a panic carrying the
given message. -/
def expectO {α : Type} (o : Option α) (msg : String) : Except String α :=
  match o with
  | some a => Except.ok a
  | none => Except.error msg

-- --------------------------------
-- signature types
-- --------------------------------

def INT_TYPE : String := "I"
def BOOL_TYPE : String := "Z"
def BYTE_TYPE : String := "B"
def CHAR_TYPE : String := "C"
def LONG_TYPE : String := "J"
def SHORT_TYPE : String := "S"
def FLOAT_TYPE : String := "F"
def DOUBLE_TYPE : String := "D"

-- --------------------------------
-- internal helper methods
-- --------------------------------

/-- Embedding of `get_field_value` (lib.rs lines 621-636): convert the field
name and owner strings (panicking on failure), then — only when `on` is null —
resolve the owner class (`expect("invalid target class given")`) and read the
static field, otherwise read the instance field on `on` directly; finally
`expect("unable to retreive field value")` on the JNI result. -/
def get_field_value (env : JVM) (target : JString) (name : JString)
    (signature : String) (onObj : JObject) : Except String JValue :=
  match jGetString name with
  | Except.error e => Except.error e
  | Except.ok field_name =>
    match jGetString target with
    | Except.error e => Except.error e
    | Except.ok field_owner =>
      match onObj with
      | none =>
        match env.findClass field_owner with
        | none => Except.error "invalid target class given"
        | some target_class =>
          expectO (env.getStaticField target_class field_name signature)
            "unable to retreive field value"
      | some obj =>
        expectO (env.getField obj field_name signature) "unable to retreive field value"

/-- Embedding of `set_field_value` (lib.rs lines 661-677): convert the field
name and owner strings (panicking on failure); when `on` is null resolve the
owner class (`expect("invalid target class given")`), resolve the static field
ID (`unwrap`), and store through it, otherwise write the instance field on `on`;
`expect("unable to set field value")` on the JNI result.  The state component
of the result is the JVM after the call. -/
def set_field_value (env : JVM) (target : JString) (name : JString)
    (signature : String) (onObj : JObject) (value : JValue) : JVM × Except String Unit :=
  match jGetString name with
  | Except.error e => (env, Except.error e)
  | Except.ok field_name =>
    match jGetString target with
    | Except.error e => (env, Except.error e)
    | Except.ok field_owner =>
      match onObj with
      | none =>
        match env.findClass field_owner with
        | none => (env, Except.error "invalid target class given")
        | some target_class =>
          match env.getStaticFieldId target_class field_name signature with
          | none => (env, Except.error "called Option.unwrap on a None value")
          | some field_id =>
            (env.setStaticField target_class field_id value, Except.ok ())
      | some obj =>
        match env.setField obj field_name signature value with
        | none => (env, Except.error "unable to set field value")
        | some envNew => (envNew, Except.ok ())

-- --------------------------------
-- field get access
-- --------------------------------

/-- Embedding of `GetObjectFieldValue`: converts the caller-supplied descriptor
string, delegates to `get_field_value`, and `expect`s an object-tagged value. -/
def Java_dev_derklaro_reflexion_internal_natives_FNativeReflect_GetObjectFieldValue
    (env : JVM) (target name signature : JString) (onObj : JObject) :
    Except String (Option Nat) :=
  match jGetString signature with
  | Except.error e => Except.error e
  | Except.ok field_signature =>
    match get_field_value env target name field_signature onObj with
    | Except.error e => Except.error e
    | Except.ok field_value => expectO field_value.l "expected an object"

/-- Embedding of `GetZFieldValue`: delegates with the internally synthesized
boolean descriptor and `expect`s a boolean-tagged value. -/
def Java_dev_derklaro_reflexion_internal_natives_FNativeReflect_GetZFieldValue
    (env : JVM) (target name : JString) (onObj : JObject) : Except String Nat :=
  match get_field_value env target name BOOL_TYPE onObj with
  | Except.error e => Except.error e
  | Except.ok field_value => expectO field_value.z "expected a boolean"

/-- Embedding of `GetBFieldValue`. -/
def Java_dev_derklaro_reflexion_internal_natives_FNativeReflect_GetBFieldValue
    (env : JVM) (target name : JString) (onObj : JObject) : Except String Int :=
  match get_field_value env target name BYTE_TYPE onObj with
  | Except.error e => Except.error e
  | Except.ok field_value => expectO field_value.b "expected a byte"

/-- Embedding of `GetCFieldValue`. -/
def Java_dev_derklaro_reflexion_internal_natives_FNativeReflect_GetCFieldValue
    (env : JVM) (target name : JString) (onObj : JObject) : Except String Nat :=
  match get_field_value env target name CHAR_TYPE onObj with
  | Except.error e => Except.error e
  | Except.ok field_value => expectO field_value.c "expected a char"

/-- Embedding of `GetSFieldValue`. -/
def Java_dev_derklaro_reflexion_internal_natives_FNativeReflect_GetSFieldValue
    (env : JVM) (target name : JString) (onObj : JObject) : Except String Int :=
  match get_field_value env target name SHORT_TYPE onObj with
  | Except.error e => Except.error e
  | Except.ok field_value => expectO field_value.s "expected a short"

/-- Embedding of `GetIFieldValue`. -/
def Java_dev_derklaro_reflexion_internal_natives_FNativeReflect_GetIFieldValue
    (env : JVM) (target name : JString) (onObj : JObject) : Except String Int :=
  match get_field_value env target name INT_TYPE onObj with
  | Except.error e => Except.error e
  | Except.ok field_value => expectO field_value.i "expected an int"

/-- Embedding of `GetJFieldValue`. -/
def Java_dev_derklaro_reflexion_internal_natives_FNativeReflect_GetJFieldValue
    (env : JVM) (target name : JString) (onObj : JObject) : Except String Int :=
  match get_field_value env target name LONG_TYPE onObj with
  | Except.error e => Except.error e
  | Except.ok field_value => expectO field_value.j "expected a long"

/-- Embedding of `GetFFieldValue`. -/
def Java_dev_derklaro_reflexion_internal_natives_FNativeReflect_GetFFieldValue
    (env : JVM) (target name : JString) (onObj : JObject) : Except String Nat :=
  match get_field_value env target name FLOAT_TYPE onObj with
  | Except.error e => Except.error e
  | Except.ok field_value => expectO field_value.f "expected a float"

/-- Embedding of `GetDFieldValue`. -/
def Java_dev_derklaro_reflexion_internal_natives_FNativeReflect_GetDFieldValue
    (env : JVM) (target name : JString) (onObj : JObject) : Except String Nat :=
  match get_field_value env target name DOUBLE_TYPE onObj with
  | Except.error e => Except.error e
  | Except.ok field_value => expectO field_value.d "expected a double"

-- --------------------------------
-- field set access
-- --------------------------------

/-- Embedding of `SetObjectFieldValue`: converts the caller-supplied descriptor
string (panicking on failure) and delegates the object-tagged value. -/
def Java_dev_derklaro_reflexion_internal_natives_FNativeReflect_SetObjectFieldValue
    (env : JVM) (target name signature : JString) (onObj : JObject) (val : Option Nat) :
    JVM × Except String Unit :=
  match jGetString signature with
  | Except.error e => (env, Except.error e)
  | Except.ok field_signature =>
    set_field_value env target name field_signature onObj (JValue.Object val)

/-- Embedding of `SetZFieldValue`: wraps the raw `jboolean` in a boolean-tagged
`JValue` and delegates with the internally synthesized descriptor. -/
def Java_dev_derklaro_reflexion_internal_natives_FNativeReflect_SetZFieldValue
    (env : JVM) (target name : JString) (onObj : JObject) (val : Nat) :
    JVM × Except String Unit :=
  set_field_value env target name BOOL_TYPE onObj (JValue.Bool val)

/-- Embedding of `SetBFieldValue`. -/
def Java_dev_derklaro_reflexion_internal_natives_FNativeReflect_SetBFieldValue
    (env : JVM) (target name : JString) (onObj : JObject) (val : Int) :
    JVM × Except String Unit :=
  set_field_value env target name BYTE_TYPE onObj (JValue.Byte val)

/-- Embedding of `SetCFieldValue`. -/
def Java_dev_derklaro_reflexion_internal_natives_FNativeReflect_SetCFieldValue
    (env : JVM) (target name : JString) (onObj : JObject) (val : Nat) :
    JVM × Except String Unit :=
  set_field_value env target name CHAR_TYPE onObj (JValue.Char val)

/-- Embedding of `SetSFieldValue`. -/
def Java_dev_derklaro_reflexion_internal_natives_FNativeReflect_SetSFieldValue
    (env : JVM) (target name : JString) (onObj : JObject) (val : Int) :
    JVM × Except String Unit :=
  set_field_value env target name SHORT_TYPE onObj (JValue.Short val)

/-- Embedding of `SetIFieldValue`. -/
def Java_dev_derklaro_reflexion_internal_natives_FNativeReflect_SetIFieldValue
    (env : JVM) (target name : JString) (onObj : JObject) (val : Int) :
    JVM × Except String Unit :=
  set_field_value env target name INT_TYPE onObj (JValue.Int val)

/-- Embedding of `SetJFieldValue`. -/
def Java_dev_derklaro_reflexion_internal_natives_FNativeReflect_SetJFieldValue
    (env : JVM) (target name : JString) (onObj : JObject) (val : Int) :
    JVM × Except String Unit :=
  set_field_value env target name LONG_TYPE onObj (JValue.Long val)

/-- Embedding of `SetFFieldValue`. -/
def Java_dev_derklaro_reflexion_internal_natives_FNativeReflect_SetFFieldValue
    (env : JVM) (target name : JString) (onObj : JObject) (val : Nat) :
    JVM × Except String Unit :=
  set_field_value env target name FLOAT_TYPE onObj (JValue.Float val)

/-- Embedding of `SetDFieldValue`. -/
def Java_dev_derklaro_reflexion_internal_natives_FNativeReflect_SetDFieldValue
    (env : JVM) (target name : JString) (onObj : JObject) (val : Nat) :
    JVM × Except String Unit :=
  set_field_value env target name DOUBLE_TYPE onObj (JValue.Double val)

-- --------------------------------
-- trusted lookup acquisition (spec §4.4)
-- --------------------------------

/-- Modelled from the spec: the trusted-lookup acquisition entry point
(spec §4.4, "Trusted Lookup Acquisition") is not present under `src/` — the
only source file there contains the field accessors.  The runtime facilities
it consults are: resolution of the runtime's privileged-lookup class, the
readable privileged static field holding the singleton token, and the check
that the resolved value is of the expected handle type. -/
structure TrustedEnv where
  findLookupClass : Option Nat
  readLookupField : Nat → Option JValue
  isLookupHandle : JValue → Bool

/-- Observable thread-level effects a native entry point can perform on the
error state of the calling thread: clearing a pending error, raising a named
(structured, catchable) error condition with a message, or aborting the
process. -/
inductive NativeEffect where
  | clearPending : NativeEffect
  | throwStructured : String → NativeEffect
  | abortProcess : String → NativeEffect
deriving DecidableEq

/-- Modelled from the spec: `acquire_trusted_lookup()` (spec §4.4), absent from
`src/`.  It tries, in order: resolve the privileged-lookup class, resolve and
read the privileged static field, and check the value is of the expected
handle type.  On success it returns the handle with no effect on the thread's
error state; on any failure it first clears any pre-existing pending error
state and then raises a structured, catchable error — it never aborts the
process.  The result is the returned handle (if any) paired with the list of
error-state effects performed, in order. -/
def acquire_trusted_lookup (env : TrustedEnv) : Option JValue × List NativeEffect :=
  match env.findLookupClass with
  | none =>
    (none, [NativeEffect.clearPending,
            NativeEffect.throwStructured "unable to resolve the privileged lookup class"])
  | some cls =>
    match env.readLookupField cls with
    | none =>
      (none, [NativeEffect.clearPending,
              NativeEffect.throwStructured "unable to resolve or read the privileged lookup field"])
    | some v =>
      if env.isLookupHandle v then
        (some v, [])
      else
        (none, [NativeEffect.clearPending,
                NativeEffect.throwStructured "resolved value is not of the expected lookup handle type"])

-- --------------------------------
-- helper lemmas and concrete states
-- --------------------------------

/-- Helper: a set that reports success through the resolver is read back exactly
by a subsequent get with the same owner, name, descriptor and receiver. -/
theorem set_then_get (env : JVM) (target name : JString) (sig : String)
    (onObj : JObject) (w : JValue) (envNew : JVM)
    (h : set_field_value env target name sig onObj w = (envNew, Except.ok ())) :
    get_field_value envNew target name sig onObj = Except.ok w := by
  unfold set_field_value at h
  cases hn : jGetString name with
  | error e => rw [hn] at h; simp at h
  | ok field_name =>
  rw [hn] at h
  cases ht : jGetString target with
  | error e => rw [ht] at h; simp at h
  | ok field_owner =>
  rw [ht] at h
  cases onObj with
  | none =>
    dsimp only at h
    cases hc : env.findClass field_owner with
    | none => rw [hc] at h; simp at h
    | some target_class =>
      rw [hc] at h
      dsimp only at h
      unfold JVM.getStaticFieldId at h
      by_cases hd : env.staticFieldDecl target_class field_name sig = true
      · rw [if_pos hd] at h
        dsimp only at h
        have henv : envNew = env.setStaticField target_class (field_name, sig) w := by
          have h1 := congrArg Prod.fst h
          simpa using h1.symm
        subst henv
        unfold get_field_value
        rw [hn, ht]
        dsimp only [JVM.setStaticField]
        rw [hc]
        dsimp only
        unfold JVM.getStaticField update3
        simp [hd, expectO]
      · rw [if_neg hd] at h; simp at h
  | some obj =>
    dsimp only at h
    cases hs : env.setField obj field_name sig w with
    | none => rw [hs] at h; simp at h
    | some env2 =>
      rw [hs] at h
      dsimp only at h
      have h1 : env2 = envNew := by
        have := congrArg Prod.fst h
        simpa using this
      rw [← h1]
      unfold JVM.setField at hs
      by_cases hd : env.instFieldDecl (env.objClass obj) field_name sig = true
      · rw [if_pos hd] at hs
        have h2 : env2 = { env with instFieldVal := update3 env.instFieldVal obj field_name sig w } := by
          exact (Option.some.inj hs).symm
        subst h2
        unfold get_field_value
        rw [hn, ht]
        dsimp only
        unfold JVM.getField update3
        simp [hd, expectO]
      · rw [if_neg hd] at hs; simp at hs

/-- Concrete JVM used to witness the theorems: class `com/example/Counter`
(handle 0) has a static field `value : I`; every object has class 1, which has
an instance field `payload : I`. -/
def envW : JVM where
  findClass := fun s => if s = "com/example/Counter" then some 0 else none
  staticFieldDecl := fun c n s => c == 0 && n == "value" && s == "I"
  staticFieldVal := fun _ _ _ => JValue.Int 0
  objClass := fun _ => 1
  instFieldDecl := fun c n s => c == 1 && n == "payload" && s == "I"
  instFieldVal := fun _ _ _ => JValue.Int 5

/-- Concrete JVM on which no class at all is resolvable, yet objects and their
instance fields exist: every object has class 0, which has an instance field
`value : I` holding 5. -/
def envC : JVM where
  findClass := fun _ => none
  staticFieldDecl := fun _ _ _ => false
  staticFieldVal := fun _ _ _ => JValue.Int 0
  objClass := fun _ => 0
  instFieldDecl := fun c n s => c == 0 && n == "value" && s == "I"
  instFieldVal := fun _ _ _ => JValue.Int 5

/-- C1: `acquire_trusted_lookup` reports every failure as a structured,
catchable error raised after first clearing any pre-existing pending error
state, never as a process abort; success returns a value of the expected
handle type with no effect on the thread's error state. -/
theorem trusted_lookup_structured_failure :
    ∀ (env : TrustedEnv),
    (∀ m, NativeEffect.abortProcess m ∉ (acquire_trusted_lookup env).snd) ∧
    ((acquire_trusted_lookup env).fst = none →
      ∃ m, (acquire_trusted_lookup env).snd =
        [NativeEffect.clearPending, NativeEffect.throwStructured m]) ∧
    (∀ v, (acquire_trusted_lookup env).fst = some v →
      (acquire_trusted_lookup env).snd = [] ∧ env.isLookupHandle v = true) := by
  intro env
  unfold acquire_trusted_lookup
  cases hc : env.findLookupClass with
  | none =>
    dsimp only
    exact ⟨by simp, fun _ => ⟨_, rfl⟩, by simp⟩
  | some cls =>
    dsimp only
    cases hf : env.readLookupField cls with
    | none =>
      dsimp only
      exact ⟨by simp, fun _ => ⟨_, rfl⟩, by simp⟩
    | some v =>
      dsimp only
      by_cases hh : env.isLookupHandle v = true
      · rw [if_pos hh]
        refine ⟨by simp, by simp, fun v2 h2 => ?_⟩
        dsimp only at h2
        cases h2
        exact ⟨rfl, hh⟩
      · rw [if_neg hh]
        exact ⟨by simp, fun _ => ⟨_, rfl⟩, by simp⟩

/-- C1 witness: on a runtime whose privileged-lookup class is unresolvable the
acquisition performs exactly a clear of the pending error state followed by a
structured throw, and never aborts the process. -/
theorem trusted_lookup_structured_failure_witness :
    (NativeEffect.abortProcess "fatal" ∉
      (acquire_trusted_lookup ⟨none, fun _ => none, fun _ => false⟩).snd) ∧
    ∃ m, (acquire_trusted_lookup ⟨none, fun _ => none, fun _ => false⟩).snd =
      [NativeEffect.clearPending, NativeEffect.throwStructured m] :=
  ⟨(trusted_lookup_structured_failure ⟨none, fun _ => none, fun _ => false⟩).1 "fatal",
   (trusted_lookup_structured_failure ⟨none, fun _ => none, fun _ => false⟩).2.1 rfl⟩

/-- C3: staticness is derived from the receiver alone.  A call with the null
receiver resolves and touches only the static side (its result is unchanged
under arbitrary replacement of the instance tables, and a set leaves every
non-static component of the state intact), while a call with a receiver
resolves and touches only the instance side (its result is unchanged under
arbitrary replacement of class resolution and the static tables, and a set
leaves every static component intact). -/
theorem staticness_derived_from_receiver :
    ∀ (env : JVM) (target name : JString) (sig : String) (v : JValue),
    (∀ (oc : Nat → Nat) (fd : Nat → String → String → Bool)
        (fv : Nat → String → String → JValue),
      get_field_value { env with objClass := oc, instFieldDecl := fd, instFieldVal := fv }
          target name sig none =
        get_field_value env target name sig none) ∧
    (∀ (F : String → Option Nat) (sd : Nat → String → String → Bool)
        (sv : Nat → String → String → JValue) (obj : Nat),
      get_field_value { env with findClass := F, staticFieldDecl := sd, staticFieldVal := sv }
          target name sig (some obj) =
        get_field_value env target name sig (some obj)) ∧
    ((set_field_value env target name sig none v).fst.findClass = env.findClass ∧
     (set_field_value env target name sig none v).fst.staticFieldDecl = env.staticFieldDecl ∧
     (set_field_value env target name sig none v).fst.objClass = env.objClass ∧
     (set_field_value env target name sig none v).fst.instFieldDecl = env.instFieldDecl ∧
     (set_field_value env target name sig none v).fst.instFieldVal = env.instFieldVal) ∧
    (∀ obj : Nat,
     (set_field_value env target name sig (some obj) v).fst.findClass = env.findClass ∧
     (set_field_value env target name sig (some obj) v).fst.staticFieldDecl = env.staticFieldDecl ∧
     (set_field_value env target name sig (some obj) v).fst.staticFieldVal = env.staticFieldVal ∧
     (set_field_value env target name sig (some obj) v).fst.objClass = env.objClass ∧
     (set_field_value env target name sig (some obj) v).fst.instFieldDecl = env.instFieldDecl) := by
  intro env target name sig v
  refine ⟨fun oc fd fv => rfl, fun F sd sv obj => rfl, ?_, ?_⟩
  · unfold set_field_value
    cases hn : jGetString name with
    | error e => exact ⟨rfl, rfl, rfl, rfl, rfl⟩
    | ok fn =>
      cases ht : jGetString target with
      | error e => exact ⟨rfl, rfl, rfl, rfl, rfl⟩
      | ok fo =>
        dsimp only
        cases hc : env.findClass fo with
        | none => exact ⟨rfl, rfl, rfl, rfl, rfl⟩
        | some cls =>
          dsimp only
          unfold JVM.getStaticFieldId
          by_cases hd : env.staticFieldDecl cls fn sig = true
          · rw [if_pos hd]; exact ⟨rfl, rfl, rfl, rfl, rfl⟩
          · rw [if_neg hd]; exact ⟨rfl, rfl, rfl, rfl, rfl⟩
  · intro obj
    unfold set_field_value
    cases hn : jGetString name with
    | error e => exact ⟨rfl, rfl, rfl, rfl, rfl⟩
    | ok fn =>
      cases ht : jGetString target with
      | error e => exact ⟨rfl, rfl, rfl, rfl, rfl⟩
      | ok fo =>
        dsimp only
        unfold JVM.setField
        by_cases hd : env.instFieldDecl (env.objClass obj) fn sig = true
        · rw [if_pos hd]; exact ⟨rfl, rfl, rfl, rfl, rfl⟩
        · rw [if_neg hd]; exact ⟨rfl, rfl, rfl, rfl, rfl⟩

/-- C10: with a live receiver instance, the outcome of a get and the full
outcome (state and result) of a set are identical for any two owner strings
that both convert to native strings: the owner class is never consulted on the
instance path. -/
theorem instance_path_owner_independent :
    ∀ (env : JVM) (t t2 name : JString) (sig s s2 : String) (obj : Nat) (v : JValue),
    jGetString t = Except.ok s → jGetString t2 = Except.ok s2 →
    get_field_value env t name sig (some obj) =
      get_field_value env t2 name sig (some obj) ∧
    set_field_value env t name sig (some obj) v =
      set_field_value env t2 name sig (some obj) v := by
  intro env t t2 name sig s s2 obj v ht ht2
  constructor
  · unfold get_field_value
    cases hn : jGetString name with
    | error e => rfl
    | ok fn =>
      dsimp only
      rw [ht, ht2]
  · unfold set_field_value
    cases hn : jGetString name with
    | error e => rfl
    | ok fn =>
      dsimp only
      rw [ht, ht2]

/-- C10 witness: on the concrete state `envC`, reading the instance field
`value : I` of object 7 yields 5 under two different owner strings. -/
theorem instance_path_owner_independent_witness :
    get_field_value envC (some "com/example/A") (some "value") "I" (some 7) =
      get_field_value envC (some "com/example/B") (some "value") "I" (some 7) ∧
    get_field_value envC (some "com/example/A") (some "value") "I" (some 7) =
      Except.ok (JValue.Int 5) :=
  ⟨(instance_path_owner_independent envC (some "com/example/A") (some "com/example/B")
      (some "value") "I" "com/example/A" "com/example/B" 7 (JValue.Int 0) rfl rfl).1,
   rfl⟩

/-- C2 counterexample: on `envC` no class is resolvable at all — resolving the
owner would fail — yet a get and a set that supply a live receiver both
succeed.  This refutes the claim that every call resolves the owner class and
that a class-resolution failure is fatal whether or not a receiver is
supplied. -/
theorem owner_resolution_claim_counterexample :
    envC.findClass "com/example/Counter" = none ∧
    get_field_value envC (some "com/example/Counter") (some "value") "I" (some 7) =
      Except.ok (JValue.Int 5) ∧
    (set_field_value envC (some "com/example/Counter") (some "value") "I" (some 7)
      (JValue.Int 9)).snd = Except.ok () := by
  exact ⟨rfl, rfl, rfl⟩

/-- C2 amended: the owner string is converted on every call, but it is resolved
to a class handle only when no receiver is supplied, and there a resolution
failure is fatal to the call (for both get and set, with the state left
unchanged); when a receiver is supplied the class-resolution table is never
consulted, so the calls behave identically under arbitrary replacement of it. -/
theorem owner_resolved_only_without_receiver :
    ∀ (env : JVM) (target name : JString) (sig fo : String) (v : JValue),
    jGetString target = Except.ok fo →
    (env.findClass fo = none →
      ∀ fn, jGetString name = Except.ok fn →
        get_field_value env target name sig none =
          Except.error "invalid target class given" ∧
        set_field_value env target name sig none v =
          (env, Except.error "invalid target class given")) ∧
    (∀ (F : String → Option Nat) (obj : Nat),
      get_field_value { env with findClass := F } target name sig (some obj) =
        get_field_value env target name sig (some obj) ∧
      (set_field_value { env with findClass := F } target name sig (some obj) v).snd =
        (set_field_value env target name sig (some obj) v).snd ∧
      (set_field_value { env with findClass := F } target name sig (some obj) v).fst.instFieldVal =
        (set_field_value env target name sig (some obj) v).fst.instFieldVal) := by
  intro env target name sig fo v ht
  constructor
  · intro hc fn hn
    constructor
    · unfold get_field_value
      rw [hn, ht]
      dsimp only
      rw [hc]
    · unfold set_field_value
      rw [hn, ht]
      dsimp only
      rw [hc]
  · intro F obj
    refine ⟨rfl, ?_, ?_⟩
    · unfold set_field_value
      cases hn : jGetString name with
      | error e => rfl
      | ok fn =>
        cases htx : jGetString target with
        | error e => rfl
        | ok fo2 =>
          dsimp only
          unfold JVM.setField
          by_cases hd : env.instFieldDecl (env.objClass obj) fn sig = true
          · rw [if_pos hd, if_pos hd]
          · rw [if_neg hd, if_neg hd]
    · unfold set_field_value
      cases hn : jGetString name with
      | error e => rfl
      | ok fn =>
        cases htx : jGetString target with
        | error e => rfl
        | ok fo2 =>
          dsimp only
          unfold JVM.setField
          by_cases hd : env.instFieldDecl (env.objClass obj) fn sig = true
          · rw [if_pos hd, if_pos hd]
          · rw [if_neg hd, if_neg hd]

/-- C4: for every primitive kind K, a kind-K set that succeeds is read back
exactly by the kind-K get on the same owner, name and receiver — for the
static (null receiver) and instance cases alike, since the statement
quantifies over the receiver. -/
theorem primitive_round_trip :
    ∀ (env : JVM) (target name : JString) (onObj : JObject),
    (∀ (v : Nat) (envNew : JVM),
      Java_dev_derklaro_reflexion_internal_natives_FNativeReflect_SetZFieldValue env target name onObj v = (envNew, Except.ok ()) →
      Java_dev_derklaro_reflexion_internal_natives_FNativeReflect_GetZFieldValue envNew target name onObj = Except.ok v) ∧
    (∀ (v : Int) (envNew : JVM),
      Java_dev_derklaro_reflexion_internal_natives_FNativeReflect_SetBFieldValue env target name onObj v = (envNew, Except.ok ()) →
      Java_dev_derklaro_reflexion_internal_natives_FNativeReflect_GetBFieldValue envNew target name onObj = Except.ok v) ∧
    (∀ (v : Nat) (envNew : JVM),
      Java_dev_derklaro_reflexion_internal_natives_FNativeReflect_SetCFieldValue env target name onObj v = (envNew, Except.ok ()) →
      Java_dev_derklaro_reflexion_internal_natives_FNativeReflect_GetCFieldValue envNew target name onObj = Except.ok v) ∧
    (∀ (v : Int) (envNew : JVM),
      Java_dev_derklaro_reflexion_internal_natives_FNativeReflect_SetSFieldValue env target name onObj v = (envNew, Except.ok ()) →
      Java_dev_derklaro_reflexion_internal_natives_FNativeReflect_GetSFieldValue envNew target name onObj = Except.ok v) ∧
    (∀ (v : Int) (envNew : JVM),
      Java_dev_derklaro_reflexion_internal_natives_FNativeReflect_SetIFieldValue env target name onObj v = (envNew, Except.ok ()) →
      Java_dev_derklaro_reflexion_internal_natives_FNativeReflect_GetIFieldValue envNew target name onObj = Except.ok v) ∧
    (∀ (v : Int) (envNew : JVM),
      Java_dev_derklaro_reflexion_internal_natives_FNativeReflect_SetJFieldValue env target name onObj v = (envNew, Except.ok ()) →
      Java_dev_derklaro_reflexion_internal_natives_FNativeReflect_GetJFieldValue envNew target name onObj = Except.ok v) ∧
    (∀ (v : Nat) (envNew : JVM),
      Java_dev_derklaro_reflexion_internal_natives_FNativeReflect_SetFFieldValue env target name onObj v = (envNew, Except.ok ()) →
      Java_dev_derklaro_reflexion_internal_natives_FNativeReflect_GetFFieldValue envNew target name onObj = Except.ok v) ∧
    (∀ (v : Nat) (envNew : JVM),
      Java_dev_derklaro_reflexion_internal_natives_FNativeReflect_SetDFieldValue env target name onObj v = (envNew, Except.ok ()) →
      Java_dev_derklaro_reflexion_internal_natives_FNativeReflect_GetDFieldValue envNew target name onObj = Except.ok v) := by
  intro env target name onObj
  refine ⟨?_, ?_, ?_, ?_, ?_, ?_, ?_, ?_⟩
  · intro v envNew h
    have hg := set_then_get env target name BOOL_TYPE onObj (JValue.Bool v) envNew h
    unfold Java_dev_derklaro_reflexion_internal_natives_FNativeReflect_GetZFieldValue
    rw [hg]
    rfl
  · intro v envNew h
    have hg := set_then_get env target name BYTE_TYPE onObj (JValue.Byte v) envNew h
    unfold Java_dev_derklaro_reflexion_internal_natives_FNativeReflect_GetBFieldValue
    rw [hg]
    rfl
  · intro v envNew h
    have hg := set_then_get env target name CHAR_TYPE onObj (JValue.Char v) envNew h
    unfold Java_dev_derklaro_reflexion_internal_natives_FNativeReflect_GetCFieldValue
    rw [hg]
    rfl
  · intro v envNew h
    have hg := set_then_get env target name SHORT_TYPE onObj (JValue.Short v) envNew h
    unfold Java_dev_derklaro_reflexion_internal_natives_FNativeReflect_GetSFieldValue
    rw [hg]
    rfl
  · intro v envNew h
    have hg := set_then_get env target name INT_TYPE onObj (JValue.Int v) envNew h
    unfold Java_dev_derklaro_reflexion_internal_natives_FNativeReflect_GetIFieldValue
    rw [hg]
    rfl
  · intro v envNew h
    have hg := set_then_get env target name LONG_TYPE onObj (JValue.Long v) envNew h
    unfold Java_dev_derklaro_reflexion_internal_natives_FNativeReflect_GetJFieldValue
    rw [hg]
    rfl
  · intro v envNew h
    have hg := set_then_get env target name FLOAT_TYPE onObj (JValue.Float v) envNew h
    unfold Java_dev_derklaro_reflexion_internal_natives_FNativeReflect_GetFFieldValue
    rw [hg]
    rfl
  · intro v envNew h
    have hg := set_then_get env target name DOUBLE_TYPE onObj (JValue.Double v) envNew h
    unfold Java_dev_derklaro_reflexion_internal_natives_FNativeReflect_GetDFieldValue
    rw [hg]
    rfl

/-- C5: for every primitive kind K, the kind-K getter aborts the call with the
kind-specific fatal message whenever the resolved value carries a different
active tag, and any value it does return is exactly the payload of a resolved
value tagged K (never a truncation or bit reinterpretation). -/
theorem getter_kind_mismatch_fatal :
    ∀ (env : JVM) (target name : JString) (onObj : JObject),
    (∀ w, get_field_value env target name BOOL_TYPE onObj = Except.ok w →
      w.kind ≠ JKind.boolean →
      Java_dev_derklaro_reflexion_internal_natives_FNativeReflect_GetZFieldValue env target name onObj = Except.error "expected a boolean") ∧
    (∀ x, Java_dev_derklaro_reflexion_internal_natives_FNativeReflect_GetZFieldValue env target name onObj = Except.ok x →
      get_field_value env target name BOOL_TYPE onObj = Except.ok (JValue.Bool x)) ∧
    (∀ w, get_field_value env target name BYTE_TYPE onObj = Except.ok w →
      w.kind ≠ JKind.byte →
      Java_dev_derklaro_reflexion_internal_natives_FNativeReflect_GetBFieldValue env target name onObj = Except.error "expected a byte") ∧
    (∀ x, Java_dev_derklaro_reflexion_internal_natives_FNativeReflect_GetBFieldValue env target name onObj = Except.ok x →
      get_field_value env target name BYTE_TYPE onObj = Except.ok (JValue.Byte x)) ∧
    (∀ w, get_field_value env target name CHAR_TYPE onObj = Except.ok w →
      w.kind ≠ JKind.char →
      Java_dev_derklaro_reflexion_internal_natives_FNativeReflect_GetCFieldValue env target name onObj = Except.error "expected a char") ∧
    (∀ x, Java_dev_derklaro_reflexion_internal_natives_FNativeReflect_GetCFieldValue env target name onObj = Except.ok x →
      get_field_value env target name CHAR_TYPE onObj = Except.ok (JValue.Char x)) ∧
    (∀ w, get_field_value env target name SHORT_TYPE onObj = Except.ok w →
      w.kind ≠ JKind.short →
      Java_dev_derklaro_reflexion_internal_natives_FNativeReflect_GetSFieldValue env target name onObj = Except.error "expected a short") ∧
    (∀ x, Java_dev_derklaro_reflexion_internal_natives_FNativeReflect_GetSFieldValue env target name onObj = Except.ok x →
      get_field_value env target name SHORT_TYPE onObj = Except.ok (JValue.Short x)) ∧
    (∀ w, get_field_value env target name INT_TYPE onObj = Except.ok w →
      w.kind ≠ JKind.int →
      Java_dev_derklaro_reflexion_internal_natives_FNativeReflect_GetIFieldValue env target name onObj = Except.error "expected an int") ∧
    (∀ x, Java_dev_derklaro_reflexion_internal_natives_FNativeReflect_GetIFieldValue env target name onObj = Except.ok x →
      get_field_value env target name INT_TYPE onObj = Except.ok (JValue.Int x)) ∧
    (∀ w, get_field_value env target name LONG_TYPE onObj = Except.ok w →
      w.kind ≠ JKind.long →
      Java_dev_derklaro_reflexion_internal_natives_FNativeReflect_GetJFieldValue env target name onObj = Except.error "expected a long") ∧
    (∀ x, Java_dev_derklaro_reflexion_internal_natives_FNativeReflect_GetJFieldValue env target name onObj = Except.ok x →
      get_field_value env target name LONG_TYPE onObj = Except.ok (JValue.Long x)) ∧
    (∀ w, get_field_value env target name FLOAT_TYPE onObj = Except.ok w →
      w.kind ≠ JKind.float →
      Java_dev_derklaro_reflexion_internal_natives_FNativeReflect_GetFFieldValue env target name onObj = Except.error "expected a float") ∧
    (∀ x, Java_dev_derklaro_reflexion_internal_natives_FNativeReflect_GetFFieldValue env target name onObj = Except.ok x →
      get_field_value env target name FLOAT_TYPE onObj = Except.ok (JValue.Float x)) ∧
    (∀ w, get_field_value env target name DOUBLE_TYPE onObj = Except.ok w →
      w.kind ≠ JKind.double →
      Java_dev_derklaro_reflexion_internal_natives_FNativeReflect_GetDFieldValue env target name onObj = Except.error "expected a double") ∧
    (∀ x, Java_dev_derklaro_reflexion_internal_natives_FNativeReflect_GetDFieldValue env target name onObj = Except.ok x →
      get_field_value env target name DOUBLE_TYPE onObj = Except.ok (JValue.Double x)) := by
  intro env target name onObj
  refine ⟨?_, ?_, ?_, ?_, ?_, ?_, ?_, ?_, ?_, ?_, ?_, ?_, ?_, ?_, ?_, ?_⟩
  · intro w hw hk
    unfold Java_dev_derklaro_reflexion_internal_natives_FNativeReflect_GetZFieldValue
    rw [hw]
    dsimp only
    cases w <;> first | exact absurd rfl hk | rfl
  · intro x hx
    unfold Java_dev_derklaro_reflexion_internal_natives_FNativeReflect_GetZFieldValue at hx
    cases hg : get_field_value env target name BOOL_TYPE onObj with
    | error e => rw [hg] at hx; simp at hx
    | ok w =>
      rw [hg] at hx
      dsimp only at hx
      cases w <;> simp [expectO, JValue.z] at hx
      rw [← hx]
  · intro w hw hk
    unfold Java_dev_derklaro_reflexion_internal_natives_FNativeReflect_GetBFieldValue
    rw [hw]
    dsimp only
    cases w <;> first | exact absurd rfl hk | rfl
  · intro x hx
    unfold Java_dev_derklaro_reflexion_internal_natives_FNativeReflect_GetBFieldValue at hx
    cases hg : get_field_value env target name BYTE_TYPE onObj with
    | error e => rw [hg] at hx; simp at hx
    | ok w =>
      rw [hg] at hx
      dsimp only at hx
      cases w <;> simp [expectO, JValue.b] at hx
      rw [← hx]
  · intro w hw hk
    unfold Java_dev_derklaro_reflexion_internal_natives_FNativeReflect_GetCFieldValue
    rw [hw]
    dsimp only
    cases w <;> first | exact absurd rfl hk | rfl
  · intro x hx
    unfold Java_dev_derklaro_reflexion_internal_natives_FNativeReflect_GetCFieldValue at hx
    cases hg : get_field_value env target name CHAR_TYPE onObj with
    | error e => rw [hg] at hx; simp at hx
    | ok w =>
      rw [hg] at hx
      dsimp only at hx
      cases w <;> simp [expectO, JValue.c] at hx
      rw [← hx]
  · intro w hw hk
    unfold Java_dev_derklaro_reflexion_internal_natives_FNativeReflect_GetSFieldValue
    rw [hw]
    dsimp only
    cases w <;> first | exact absurd rfl hk | rfl
  · intro x hx
    unfold Java_dev_derklaro_reflexion_internal_natives_FNativeReflect_GetSFieldValue at hx
    cases hg : get_field_value env target name SHORT_TYPE onObj with
    | error e => rw [hg] at hx; simp at hx
    | ok w =>
      rw [hg] at hx
      dsimp only at hx
      cases w <;> simp [expectO, JValue.s] at hx
      rw [← hx]
  · intro w hw hk
    unfold Java_dev_derklaro_reflexion_internal_natives_FNativeReflect_GetIFieldValue
    rw [hw]
    dsimp only
    cases w <;> first | exact absurd rfl hk | rfl
  · intro x hx
    unfold Java_dev_derklaro_reflexion_internal_natives_FNativeReflect_GetIFieldValue at hx
    cases hg : get_field_value env target name INT_TYPE onObj with
    | error e => rw [hg] at hx; simp at hx
    | ok w =>
      rw [hg] at hx
      dsimp only at hx
      cases w <;> simp [expectO, JValue.i] at hx
      rw [← hx]
  · intro w hw hk
    unfold Java_dev_derklaro_reflexion_internal_natives_FNativeReflect_GetJFieldValue
    rw [hw]
    dsimp only
    cases w <;> first | exact absurd rfl hk | rfl
  · intro x hx
    unfold Java_dev_derklaro_reflexion_internal_natives_FNativeReflect_GetJFieldValue at hx
    cases hg : get_field_value env target name LONG_TYPE onObj with
    | error e => rw [hg] at hx; simp at hx
    | ok w =>
      rw [hg] at hx
      dsimp only at hx
      cases w <;> simp [expectO, JValue.j] at hx
      rw [← hx]
  · intro w hw hk
    unfold Java_dev_derklaro_reflexion_internal_natives_FNativeReflect_GetFFieldValue
    rw [hw]
    dsimp only
    cases w <;> first | exact absurd rfl hk | rfl
  · intro x hx
    unfold Java_dev_derklaro_reflexion_internal_natives_FNativeReflect_GetFFieldValue at hx
    cases hg : get_field_value env target name FLOAT_TYPE onObj with
    | error e => rw [hg] at hx; simp at hx
    | ok w =>
      rw [hg] at hx
      dsimp only at hx
      cases w <;> simp [expectO, JValue.f] at hx
      rw [← hx]
  · intro w hw hk
    unfold Java_dev_derklaro_reflexion_internal_natives_FNativeReflect_GetDFieldValue
    rw [hw]
    dsimp only
    cases w <;> first | exact absurd rfl hk | rfl
  · intro x hx
    unfold Java_dev_derklaro_reflexion_internal_natives_FNativeReflect_GetDFieldValue at hx
    cases hg : get_field_value env target name DOUBLE_TYPE onObj with
    | error e => rw [hg] at hx; simp at hx
    | ok w =>
      rw [hg] at hx
      dsimp only at hx
      cases w <;> simp [expectO, JValue.d] at hx
      rw [← hx]

/-- Concrete JVM whose static field `value` is declared with descriptor `I` but
whose storage holds a long-tagged value — the ill-typed situation the getters'
tag assertion defends against. -/
def envX : JVM where
  findClass := fun s => if s = "com/example/Counter" then some 0 else none
  staticFieldDecl := fun c n s => c == 0 && n == "value" && s == "I"
  staticFieldVal := fun _ _ _ => JValue.Long 7
  objClass := fun _ => 1
  instFieldDecl := fun _ _ _ => false
  instFieldVal := fun _ _ _ => JValue.Int 0

/-- C4 witness: on `envW`, setting the static int field `value` to 42 and
reading it back returns 42, and likewise 7 through the instance field
`payload` of object 3. -/
theorem primitive_round_trip_witness :
    Java_dev_derklaro_reflexion_internal_natives_FNativeReflect_GetIFieldValue
      (Java_dev_derklaro_reflexion_internal_natives_FNativeReflect_SetIFieldValue envW
        (some "com/example/Counter") (some "value") none 42).fst
      (some "com/example/Counter") (some "value") none = Except.ok 42 ∧
    Java_dev_derklaro_reflexion_internal_natives_FNativeReflect_GetIFieldValue
      (Java_dev_derklaro_reflexion_internal_natives_FNativeReflect_SetIFieldValue envW
        (some "com/example/Counter") (some "payload") (some 3) 7).fst
      (some "com/example/Counter") (some "payload") (some 3) = Except.ok 7 :=
  ⟨(primitive_round_trip envW (some "com/example/Counter") (some "value")
      none).2.2.2.2.1 42 _ rfl,
   (primitive_round_trip envW (some "com/example/Counter") (some "payload")
      (some 3)).2.2.2.2.1 7 _ rfl⟩

/-- C5 witness: on `envX` the int getter finds a long-tagged value and aborts
with "expected an int"; on `envW` a successful int get is exactly an
int-tagged resolver result. -/
theorem getter_kind_mismatch_fatal_witness :
    Java_dev_derklaro_reflexion_internal_natives_FNativeReflect_GetIFieldValue envX
      (some "com/example/Counter") (some "value") none =
        Except.error "expected an int" ∧
    get_field_value envW (some "com/example/Counter") (some "value") INT_TYPE none =
      Except.ok (JValue.Int 0) :=
  ⟨(getter_kind_mismatch_fatal envX (some "com/example/Counter") (some "value")
      none).2.2.2.2.2.2.2.2.1 (JValue.Long 7) rfl (by decide),
   (getter_kind_mismatch_fatal envW (some "com/example/Counter") (some "value")
      none).2.2.2.2.2.2.2.2.2.1 0 rfl⟩

/-- C6: field resolution matches on the exact (name, descriptor) pair: when the
supplied descriptor is not declared for the field name — even though the same
name is declared under a different descriptor — the static and instance paths
of get and set all fail fatally as "field not found", and a successful get
reads exactly the slot keyed by the supplied name and descriptor, never
another field. -/
theorem field_resolution_exact_descriptor :
    ∀ (env : JVM) (target name : JString) (fo fn sig sig2 : String) (v : JValue),
    jGetString target = Except.ok fo → jGetString name = Except.ok fn →
    (∀ cls, env.findClass fo = some cls →
      env.staticFieldDecl cls fn sig2 = true → sig2 ≠ sig →
      env.staticFieldDecl cls fn sig = false →
      get_field_value env target name sig none =
        Except.error "unable to retreive field value" ∧
      (set_field_value env target name sig none v).snd =
        Except.error "called Option.unwrap on a None value") ∧
    (∀ obj, env.instFieldDecl (env.objClass obj) fn sig2 = true → sig2 ≠ sig →
      env.instFieldDecl (env.objClass obj) fn sig = false →
      get_field_value env target name sig (some obj) =
        Except.error "unable to retreive field value" ∧
      (set_field_value env target name sig (some obj) v).snd =
        Except.error "unable to set field value") ∧
    (∀ w, get_field_value env target name sig none = Except.ok w →
      ∃ cls, env.findClass fo = some cls ∧ env.staticFieldDecl cls fn sig = true ∧
        w = env.staticFieldVal cls fn sig) ∧
    (∀ obj w, get_field_value env target name sig (some obj) = Except.ok w →
      env.instFieldDecl (env.objClass obj) fn sig = true ∧
      w = env.instFieldVal obj fn sig) := by
  intro env target name fo fn sig sig2 v ht hn
  refine ⟨?_, ?_, ?_, ?_⟩
  · intro cls hc hdecl2 hne hdecl
    constructor
    · unfold get_field_value
      rw [hn, ht]
      dsimp only
      rw [hc]
      dsimp only
      simp [JVM.getStaticField, hdecl, expectO]
    · unfold set_field_value
      rw [hn, ht]
      dsimp only
      rw [hc]
      dsimp only
      simp [JVM.getStaticFieldId, hdecl]
  · intro obj hdecl2 hne hdecl
    constructor
    · unfold get_field_value
      rw [hn, ht]
      dsimp only
      simp [JVM.getField, hdecl, expectO]
    · unfold set_field_value
      rw [hn, ht]
      dsimp only
      simp [JVM.setField, hdecl]
  · intro w hw
    unfold get_field_value at hw
    rw [hn, ht] at hw
    dsimp only at hw
    cases hc : env.findClass fo with
    | none => rw [hc] at hw; simp at hw
    | some cls =>
      rw [hc] at hw
      dsimp only at hw
      unfold JVM.getStaticField at hw
      by_cases hd : env.staticFieldDecl cls fn sig = true
      · rw [if_pos hd] at hw
        simp [expectO] at hw
        exact ⟨cls, rfl, hd, hw.symm⟩
      · rw [if_neg hd] at hw
        simp [expectO] at hw
  · intro obj w hw
    unfold get_field_value at hw
    rw [hn, ht] at hw
    dsimp only at hw
    unfold JVM.getField at hw
    by_cases hd : env.instFieldDecl (env.objClass obj) fn sig = true
    · rw [if_pos hd] at hw
      simp [expectO] at hw
      exact ⟨hd, hw.symm⟩
    · rw [if_neg hd] at hw
      simp [expectO] at hw

/-- C6 witness: on `envW` the static field `value` exists with descriptor `I`;
querying it with descriptor `J` fails as "field not found". -/
theorem field_resolution_exact_descriptor_witness :
    envW.staticFieldDecl 0 "value" "I" = true ∧
    get_field_value envW (some "com/example/Counter") (some "value") "J" none =
      Except.error "unable to retreive field value" :=
  ⟨rfl, ((field_resolution_exact_descriptor envW (some "com/example/Counter")
      (some "value") "com/example/Counter" "value" "J" "I" (JValue.Int 0) rfl rfl).1
      0 rfl rfl (by decide) rfl).1⟩


/-- C7: the signature-type registry maps each of the eight primitive kinds to
exactly its canonical one-character descriptor tag, each primitive entry point
invokes the resolver with the descriptor synthesized from the registry (those
entry points take no descriptor argument), and only the object-kind entry
points pass a caller-supplied descriptor string through to the resolver. -/
theorem signature_registry_synthesized :
    (BOOL_TYPE = "Z" ∧
     BYTE_TYPE = "B" ∧
     CHAR_TYPE = "C" ∧
     SHORT_TYPE = "S" ∧
     INT_TYPE = "I" ∧
     LONG_TYPE = "J" ∧
     FLOAT_TYPE = "F" ∧
     DOUBLE_TYPE = "D") ∧
    (kindOfDescriptor BOOL_TYPE = some JKind.boolean ∧
     kindOfDescriptor BYTE_TYPE = some JKind.byte ∧
     kindOfDescriptor CHAR_TYPE = some JKind.char ∧
     kindOfDescriptor SHORT_TYPE = some JKind.short ∧
     kindOfDescriptor INT_TYPE = some JKind.int ∧
     kindOfDescriptor LONG_TYPE = some JKind.long ∧
     kindOfDescriptor FLOAT_TYPE = some JKind.float ∧
     kindOfDescriptor DOUBLE_TYPE = some JKind.double) ∧
    (∀ (env : JVM) (target name : JString) (onObj : JObject),
      (∀ v : Nat, Java_dev_derklaro_reflexion_internal_natives_FNativeReflect_SetZFieldValue env target name onObj v =
        set_field_value env target name BOOL_TYPE onObj (JValue.Bool v)) ∧
      Java_dev_derklaro_reflexion_internal_natives_FNativeReflect_GetZFieldValue env target name onObj =
        (match get_field_value env target name BOOL_TYPE onObj with
         | Except.error e => Except.error e
         | Except.ok fv => expectO fv.z "expected a boolean") ∧
      (∀ v : Int, Java_dev_derklaro_reflexion_internal_natives_FNativeReflect_SetBFieldValue env target name onObj v =
        set_field_value env target name BYTE_TYPE onObj (JValue.Byte v)) ∧
      Java_dev_derklaro_reflexion_internal_natives_FNativeReflect_GetBFieldValue env target name onObj =
        (match get_field_value env target name BYTE_TYPE onObj with
         | Except.error e => Except.error e
         | Except.ok fv => expectO fv.b "expected a byte") ∧
      (∀ v : Nat, Java_dev_derklaro_reflexion_internal_natives_FNativeReflect_SetCFieldValue env target name onObj v =
        set_field_value env target name CHAR_TYPE onObj (JValue.Char v)) ∧
      Java_dev_derklaro_reflexion_internal_natives_FNativeReflect_GetCFieldValue env target name onObj =
        (match get_field_value env target name CHAR_TYPE onObj with
         | Except.error e => Except.error e
         | Except.ok fv => expectO fv.c "expected a char") ∧
      (∀ v : Int, Java_dev_derklaro_reflexion_internal_natives_FNativeReflect_SetSFieldValue env target name onObj v =
        set_field_value env target name SHORT_TYPE onObj (JValue.Short v)) ∧
      Java_dev_derklaro_reflexion_internal_natives_FNativeReflect_GetSFieldValue env target name onObj =
        (match get_field_value env target name SHORT_TYPE onObj with
         | Except.error e => Except.error e
         | Except.ok fv => expectO fv.s "expected a short") ∧
      (∀ v : Int, Java_dev_derklaro_reflexion_internal_natives_FNativeReflect_SetIFieldValue env target name onObj v =
        set_field_value env target name INT_TYPE onObj (JValue.Int v)) ∧
      Java_dev_derklaro_reflexion_internal_natives_FNativeReflect_GetIFieldValue env target name onObj =
        (match get_field_value env target name INT_TYPE onObj with
         | Except.error e => Except.error e
         | Except.ok fv => expectO fv.i "expected an int") ∧
      (∀ v : Int, Java_dev_derklaro_reflexion_internal_natives_FNativeReflect_SetJFieldValue env target name onObj v =
        set_field_value env target name LONG_TYPE onObj (JValue.Long v)) ∧
      Java_dev_derklaro_reflexion_internal_natives_FNativeReflect_GetJFieldValue env target name onObj =
        (match get_field_value env target name LONG_TYPE onObj with
         | Except.error e => Except.error e
         | Except.ok fv => expectO fv.j "expected a long") ∧
      (∀ v : Nat, Java_dev_derklaro_reflexion_internal_natives_FNativeReflect_SetFFieldValue env target name onObj v =
        set_field_value env target name FLOAT_TYPE onObj (JValue.Float v)) ∧
      Java_dev_derklaro_reflexion_internal_natives_FNativeReflect_GetFFieldValue env target name onObj =
        (match get_field_value env target name FLOAT_TYPE onObj with
         | Except.error e => Except.error e
         | Except.ok fv => expectO fv.f "expected a float") ∧
      (∀ v : Nat, Java_dev_derklaro_reflexion_internal_natives_FNativeReflect_SetDFieldValue env target name onObj v =
        set_field_value env target name DOUBLE_TYPE onObj (JValue.Double v)) ∧
      Java_dev_derklaro_reflexion_internal_natives_FNativeReflect_GetDFieldValue env target name onObj =
        (match get_field_value env target name DOUBLE_TYPE onObj with
         | Except.error e => Except.error e
         | Except.ok fv => expectO fv.d "expected a double")) ∧
    (∀ (env : JVM) (target name signature : JString) (onObj : JObject)
        (s : String) (val : Option Nat),
      jGetString signature = Except.ok s →
      Java_dev_derklaro_reflexion_internal_natives_FNativeReflect_GetObjectFieldValue env target name signature onObj =
        (match get_field_value env target name s onObj with
         | Except.error e => Except.error e
         | Except.ok fv => expectO fv.l "expected an object") ∧
      Java_dev_derklaro_reflexion_internal_natives_FNativeReflect_SetObjectFieldValue env target name signature onObj val =
        set_field_value env target name s onObj (JValue.Object val)) := by
  refine ⟨⟨rfl, rfl, rfl, rfl, rfl, rfl, rfl, rfl⟩,
    ⟨rfl, rfl, rfl, rfl, rfl, rfl, rfl, rfl⟩, ?_, ?_⟩
  · intro env target name onObj
    exact ⟨fun v => rfl, rfl, fun v => rfl, rfl, fun v => rfl, rfl, fun v => rfl, rfl,
      fun v => rfl, rfl, fun v => rfl, rfl, fun v => rfl, rfl, fun v => rfl, rfl⟩
  · intro env target name signature onObj s val hsig
    constructor
    · unfold Java_dev_derklaro_reflexion_internal_natives_FNativeReflect_GetObjectFieldValue
      rw [hsig]
    · unfold Java_dev_derklaro_reflexion_internal_natives_FNativeReflect_SetObjectFieldValue
      rw [hsig]

/-- C7 witness: the object-kind getter passes the caller-supplied descriptor
`Ljava/lang/String;` through to the resolver unchanged. -/
theorem signature_registry_synthesized_witness :
    Java_dev_derklaro_reflexion_internal_natives_FNativeReflect_GetObjectFieldValue envC (some "com/example/A") (some "value")
        (some "Ljava/lang/String;") (some 1) =
      (match get_field_value envC (some "com/example/A") (some "value")
          "Ljava/lang/String;" (some 1) with
       | Except.error e => Except.error e
       | Except.ok fv => expectO fv.l "expected an object") :=
  (signature_registry_synthesized.2.2.2 envC (some "com/example/A") (some "value")
    (some "Ljava/lang/String;") (some 1) "Ljava/lang/String;" none rfl).1


/-- Well-formedness of a JVM state: under every declared field slot the runtime
stores a value whose active tag is the kind of the slot's descriptor (the host
runtime's typed field primitives maintain this invariant). -/
def JVM.WF (env : JVM) : Prop :=
  (∀ c n s, env.staticFieldDecl c n s = true →
    kindOfDescriptor s = some (env.staticFieldVal c n s).kind) ∧
  (∀ o n s, env.instFieldDecl (env.objClass o) n s = true →
    kindOfDescriptor s = some (env.instFieldVal o n s).kind)

/-- The concrete state `envW` is well formed. -/
theorem envW_WF : envW.WF := by
  constructor
  · intro c n s h
    have hs : s = "I" := by
      simp only [envW, Bool.and_eq_true, beq_iff_eq] at h
      exact h.2
    subst hs
    rfl
  · intro o n s h
    have hs : s = "I" := by
      simp only [envW, Bool.and_eq_true, beq_iff_eq] at h
      exact h.2
    subst hs
    rfl

/-- C8: a set whose outcome is an error leaves the state exactly as it was
(string conversion, class resolution and field resolution all precede the
single mutation), and on a well-formed state a successful get returns a value
whose active tag is the kind of the descriptor the field resolved against. -/
theorem set_atomic_get_tagged :
    (∀ (env : JVM) (target name : JString) (sig : String) (onObj : JObject)
        (v : JValue) (e : String),
      (set_field_value env target name sig onObj v).snd = Except.error e →
      (set_field_value env target name sig onObj v).fst = env) ∧
    (∀ (env : JVM) (target name : JString) (sig : String) (onObj : JObject)
        (w : JValue), env.WF →
      get_field_value env target name sig onObj = Except.ok w →
      kindOfDescriptor sig = some w.kind) := by
  constructor
  · intro env target name sig onObj v e h
    unfold set_field_value at h ⊢
    cases hn : jGetString name with
    | error e2 => rfl
    | ok fn =>
      rw [hn] at h
      cases ht : jGetString target with
      | error e2 => rfl
      | ok fo =>
        rw [ht] at h
        cases onObj with
        | none =>
          dsimp only at h ⊢
          cases hc : env.findClass fo with
          | none => rfl
          | some cls =>
            rw [hc] at h
            dsimp only at h ⊢
            cases hi : env.getStaticFieldId cls fn sig with
            | none => rfl
            | some fid => rw [hi] at h; simp at h
        | some obj =>
          dsimp only at h ⊢
          cases hs : env.setField obj fn sig v with
          | none => rfl
          | some env2 => rw [hs] at h; simp at h
  · intro env target name sig onObj w hwf hok
    unfold get_field_value at hok
    cases hn : jGetString name with
    | error e => rw [hn] at hok; simp at hok
    | ok fn =>
      rw [hn] at hok
      cases ht : jGetString target with
      | error e => rw [ht] at hok; simp at hok
      | ok fo =>
        rw [ht] at hok
        cases onObj with
        | none =>
          dsimp only at hok
          cases hc : env.findClass fo with
          | none => rw [hc] at hok; simp at hok
          | some cls =>
            rw [hc] at hok
            dsimp only at hok
            unfold JVM.getStaticField at hok
            by_cases hd : env.staticFieldDecl cls fn sig = true
            · rw [if_pos hd] at hok
              simp [expectO] at hok
              rw [← hok]
              exact hwf.1 cls fn sig hd
            · rw [if_neg hd] at hok
              simp [expectO] at hok
        | some obj =>
          dsimp only at hok
          unfold JVM.getField at hok
          by_cases hd : env.instFieldDecl (env.objClass obj) fn sig = true
          · rw [if_pos hd] at hok
            simp [expectO] at hok
            rw [← hok]
            exact hwf.2 obj fn sig hd
          · rw [if_neg hd] at hok
            simp [expectO] at hok

/-- C8 witness: a set that fails (unconvertible owner string) leaves `envW`
unchanged, and a successful get on the well-formed `envW` returns a value
tagged with the kind of the supplied descriptor. -/
theorem set_atomic_get_tagged_witness :
    (set_field_value envW none (some "value") "I" none (JValue.Int 3)).fst = envW ∧
    kindOfDescriptor "I" = some (JValue.Int 0).kind :=
  ⟨set_atomic_get_tagged.1 envW none (some "value") "I" none (JValue.Int 3)
      "called Result.unwrap on an Err value" rfl,
   set_atomic_get_tagged.2 envW (some "com/example/Counter") (some "value") "I" none
      (JValue.Int 0) envW_WF rfl⟩


/-- C9: each primitive setter entry point wraps the caller-supplied native
value in a `JValue` whose active tag is its own kind and delegates to the
resolver with the registry descriptor of that same kind, so from a primitive
setter the resolver is never handed a value whose tag disagrees with the
descriptor. -/
theorem setter_wraps_matching_tag :
    ∀ (env : JVM) (target name : JString) (onObj : JObject),
    (∀ v : Nat,
      Java_dev_derklaro_reflexion_internal_natives_FNativeReflect_SetZFieldValue env target name onObj v =
        set_field_value env target name BOOL_TYPE onObj (JValue.Bool v) ∧
      kindOfDescriptor BOOL_TYPE = some (JValue.Bool v).kind) ∧
    (∀ v : Int,
      Java_dev_derklaro_reflexion_internal_natives_FNativeReflect_SetBFieldValue env target name onObj v =
        set_field_value env target name BYTE_TYPE onObj (JValue.Byte v) ∧
      kindOfDescriptor BYTE_TYPE = some (JValue.Byte v).kind) ∧
    (∀ v : Nat,
      Java_dev_derklaro_reflexion_internal_natives_FNativeReflect_SetCFieldValue env target name onObj v =
        set_field_value env target name CHAR_TYPE onObj (JValue.Char v) ∧
      kindOfDescriptor CHAR_TYPE = some (JValue.Char v).kind) ∧
    (∀ v : Int,
      Java_dev_derklaro_reflexion_internal_natives_FNativeReflect_SetSFieldValue env target name onObj v =
        set_field_value env target name SHORT_TYPE onObj (JValue.Short v) ∧
      kindOfDescriptor SHORT_TYPE = some (JValue.Short v).kind) ∧
    (∀ v : Int,
      Java_dev_derklaro_reflexion_internal_natives_FNativeReflect_SetIFieldValue env target name onObj v =
        set_field_value env target name INT_TYPE onObj (JValue.Int v) ∧
      kindOfDescriptor INT_TYPE = some (JValue.Int v).kind) ∧
    (∀ v : Int,
      Java_dev_derklaro_reflexion_internal_natives_FNativeReflect_SetJFieldValue env target name onObj v =
        set_field_value env target name LONG_TYPE onObj (JValue.Long v) ∧
      kindOfDescriptor LONG_TYPE = some (JValue.Long v).kind) ∧
    (∀ v : Nat,
      Java_dev_derklaro_reflexion_internal_natives_FNativeReflect_SetFFieldValue env target name onObj v =
        set_field_value env target name FLOAT_TYPE onObj (JValue.Float v) ∧
      kindOfDescriptor FLOAT_TYPE = some (JValue.Float v).kind) ∧
    (∀ v : Nat,
      Java_dev_derklaro_reflexion_internal_natives_FNativeReflect_SetDFieldValue env target name onObj v =
        set_field_value env target name DOUBLE_TYPE onObj (JValue.Double v) ∧
      kindOfDescriptor DOUBLE_TYPE = some (JValue.Double v).kind) := by
  intro env target name onObj
  exact ⟨fun v => ⟨rfl, rfl⟩, fun v => ⟨rfl, rfl⟩, fun v => ⟨rfl, rfl⟩,
    fun v => ⟨rfl, rfl⟩, fun v => ⟨rfl, rfl⟩, fun v => ⟨rfl, rfl⟩,
    fun v => ⟨rfl, rfl⟩, fun v => ⟨rfl, rfl⟩⟩

/-- C2 witness (amended claim): on `envW`, a static get with an owner string
that does not resolve fails fatally with the class-resolution message, while
an instance-path get is unchanged when class resolution is replaced entirely. -/
theorem owner_resolution_amended_witness :
    get_field_value envW (some "com/example/Missing") (some "value") "I" none =
      Except.error "invalid target class given" ∧
    get_field_value { envW with findClass := fun _ => none }
        (some "com/example/Counter") (some "payload") "I" (some 3) =
      get_field_value envW (some "com/example/Counter") (some "payload") "I" (some 3) :=
  ⟨((owner_resolved_only_without_receiver envW (some "com/example/Missing") (some "value")
      "I" "com/example/Missing" (JValue.Int 0) rfl).1 rfl "value" rfl).1,
   ((owner_resolved_only_without_receiver envW (some "com/example/Counter") (some "payload")
      "I" "com/example/Counter" (JValue.Int 0) rfl).2 (fun _ => none) 3).1⟩
